import Mathlib

/-!
Verification of the lunch-voting service against its design document.

The first part shallowly embeds `src/main.rs`: the `votes` table state, the
`save_vote` function, the `/vote` handler `vote`, and `main`'s startup
sequence.  Stateful code is modelled by explicit state passing on a `Db`
value; a fallible Rust `Result` becomes `Except`; a possible process-aborting
panic (`unwrap`/`expect`) becomes an `Option` result where `none` is the
abort.  The second part models, from the design document, the operations the
document describes but the prototype never implemented (`ComputeTally` and the
voter-keyed store).
-/

/-- A row of the sqlite `votes` table as declared by the DDL in `main`
(main.rs:31-35): columns `id` (INTEGER PRIMARY KEY), `voter_name`,
`restaurant_name`. -/
structure VoteRow where
  id : Nat
  voter_name : String
  restaurant_name : String
  deriving DecidableEq

/-- A backend error value originating from the storage engine (`sqlx::Error`),
identified by its message. -/
structure SqlxError where
  msg : String
  deriving DecidableEq

/-- The sqlite database as the handlers see it: the rows of the `votes` table,
and whether backend queries currently fail (`some e`: every query errors
with `e`; `none`: queries succeed). -/
structure Db where
  rows : List VoteRow
  failure : Option SqlxError
  deriving DecidableEq

/-- The request payload of `POST /vote` (`struct VoteRequest`,
main.rs:71-75). -/
structure VoteRequest where
  voter_name : String
  restaurant_name : String
  deriving DecidableEq

/-- Embeds `enum SaveVoteError` (main.rs:92-95).  It is declared in the source
but never constructed: `save_vote` returns `Result<(), sqlx::Error>`, so no
code path can produce `UnknownRestaurant`. -/
inductive SaveVoteError where
  | DbError (e : SqlxError)
  | UnknownRestaurant (s : String)
  deriving DecidableEq

/-- Running `SELECT * FROM votes` against the backend: returns the rows, or
the backend's error when it is failing. -/
def selectAllVotes (db : Db) : Except SqlxError (List VoteRow) :=
  match db.failure with
  | some e => Except.error e
  | none => Except.ok db.rows

/-- Embeds `save_vote` (main.rs:98-109): runs `SELECT * FROM votes`,
propagating a backend error with `?`, prints each returned row, and returns
`Ok(())`.  It executes no INSERT, UPDATE or validation, and never reads its
`vote` argument.  The second component is the database state after the call. -/
def save_vote (db : Db) (_vote : VoteRequest) : Except SqlxError Unit × Db :=
  match selectAllVotes db with
  | Except.error e => (Except.error e, db)
  | Except.ok _rows => (Except.ok (), db)

/-- Embeds the `/vote` handler `vote` (main.rs:82-87): `dbg!`-prints the
request, awaits `save_vote`, `dbg!`-prints its `Result`, discards it, and
returns unit.  A `none` result would model a process-aborting panic; the
handler body contains no panicking operation, so the translation always
returns `some`. -/
def vote (db : Db) (req : VoteRequest) : Option (Unit × Db) :=
  some ((), (save_vote db req).2)

/-- Embeds `main`'s startup (main.rs:30-38): `SqlitePool::connect(..).unwrap()`
followed by executing the `CREATE TABLE` DDL with `.expect(..)`.  A `none`
result models the process-fatal panic of `unwrap`/`expect`;
`connectResult` and `ddlResult` are the outcomes of the two storage calls. -/
def main_startup (connectResult : Except SqlxError Db)
    (ddlResult : Db → Except SqlxError Unit) : Option Db :=
  match connectResult with
  | Except.error _ => none
  | Except.ok db =>
    match ddlResult db with
    | Except.error _ => none
    | Except.ok _ => some db

/-- The literal DDL string `main` executes (main.rs:31-35).  It is not valid
SQL: the comma after `PRIMARY KEY` is missing, and there is a stray comma
before the closing parenthesis and another after it, so executing it yields a
backend error and `main`'s `.expect` panics at startup. -/
def votesTableDDL : String :=
  "CREATE TABLE IF NOT EXISTS votes \n        (id INTEGER PRIMARY KEY\n        voter_name VARCHAR(255) NOT NULL, \n        restaurant_name VARCHAR(255) NOT NULL,\n        ),"

/-- The row constraints the votes-table DDL's column list declares: `id` is
the primary key (hence unique across rows); `voter_name` and
`restaurant_name` are `NOT NULL`, which the string-valued embedding satisfies
trivially.  No declared constraint mentions `voter_name` uniqueness. -/
def schemaAdmits (rows : List VoteRow) : Prop :=
  (rows.map VoteRow.id).Nodup

/-- Whether a string is empty after trimming whitespace: every one of its
characters is whitespace. -/
def emptyAfterTrim (s : String) : Bool :=
  s.data.all Char.isWhitespace

/-- Modelled from the spec: a `Vote` record (spec section 3), one voter's
current choice.  Missing from src, whose prototype never builds vote
records. -/
structure Vote where
  voterName : String
  restaurantName : String
  deriving DecidableEq

/-- Modelled from the spec: the `VoteError` taxonomy (spec section 7).
Missing from src, which has no caller-facing error type. -/
inductive VoteError where
  | InvalidInput (field : String)
  | StorageFailure
  deriving DecidableEq

/-- Modelled from the spec: `VoteStore.Upsert` (spec section 4.1),
create-if-absent-else-replace keyed by `voterName`.  Missing from src, whose
`save_vote` performs no write. -/
def Upsert (store : List Vote) (v r : String) : List Vote :=
  if store.any (fun x => x.voterName == v) then
    store.map (fun x => if x.voterName == v then Vote.mk v r else x)
  else store ++ [Vote.mk v r]

/-- Part of the modelled `ComputeTally` grouping: append a restaurant key if
it has not been seen yet (spec section 3: insertion order of restaurants is
the order first seen). -/
def insertKey (acc : List String) (r : String) : List String :=
  if r ∈ acc then acc else acc ++ [r]

/-- Part of the modelled `ComputeTally` grouping: the distinct restaurants of
the store, in order first seen. -/
def tallyKeys (votes : List Vote) : List String :=
  votes.foldl (fun acc vt => insertKey acc vt.restaurantName) []

/-- Part of the modelled `ComputeTally` grouping: the voters currently
assigned to restaurant `r`. -/
def votersFor (votes : List Vote) (r : String) : List String :=
  (votes.filter (fun vt => vt.restaurantName == r)).map Vote.voterName

/-- Modelled from the spec: the grouping `ComputeTally` performs (spec
section 4.2) — for each distinct restaurant, the voters currently assigned to
it.  Missing from src, where the grouped-result shape (`LunchVoting`,
`Restaurant`, main.rs:56-65) is declared but never populated or served. -/
def computeTallyRecords (votes : List Vote) : List (String × List String) :=
  (tallyKeys votes).map (fun r => (r, votersFor votes r))

/-- Modelled from the spec: `ComputeTally` (spec section 4.2) reads all
records via `FetchAll` and groups them; `backendOk` is whether `FetchAll`
succeeds, and a backend failure surfaces as `StorageFailure`.  Missing from
src, which wires up no tally endpoint. -/
def ComputeTally (store : List Vote) (backendOk : Bool) :
    Except VoteError (List (String × List String)) :=
  if backendOk then Except.ok (computeTallyRecords store)
  else Except.error VoteError.StorageFailure

/-- Voter `v` is listed under restaurant `r` in tally `t`. -/
def tallyHas (t : List (String × List String)) (r v : String) : Prop :=
  ∃ e ∈ t, e.1 = r ∧ v ∈ e.2

/-- The store reached by the spec's example submissions: (alice, Pizza Place),
(bob, Pizza Place), (carol, Taco Spot) (spec section 8). -/
def ExampleStore : List Vote :=
  Upsert (Upsert (Upsert [] "alice" "Pizza Place") "bob" "Pizza Place")
    "carol" "Taco Spot"

lemma mem_insertKey (acc : List String) (x r : String) :
    r ∈ insertKey acc x ↔ r ∈ acc ∨ r = x := by
  by_cases h : x ∈ acc
  · simp only [insertKey, if_pos h]
    constructor
    · exact Or.inl
    · rintro (hr | rfl)
      · exact hr
      · exact h
  · simp [insertKey, if_neg h]

lemma mem_foldl_insertKey (votes : List Vote) :
    ∀ (acc : List String) (r : String),
      r ∈ votes.foldl (fun a vt => insertKey a vt.restaurantName) acc ↔
        r ∈ acc ∨ ∃ vt ∈ votes, vt.restaurantName = r := by
  induction votes with
  | nil => intro acc r; simp
  | cons vt rest ih =>
    intro acc r
    rw [List.foldl_cons, ih, mem_insertKey]
    simp only [List.mem_cons]
    constructor
    · rintro ((hr | rfl) | ⟨w, hw, hwr⟩)
      · exact Or.inl hr
      · exact Or.inr ⟨vt, Or.inl rfl, rfl⟩
      · exact Or.inr ⟨w, Or.inr hw, hwr⟩
    · rintro (hr | ⟨w, (rfl | hw), hwr⟩)
      · exact Or.inl (Or.inl hr)
      · exact Or.inl (Or.inr hwr.symm)
      · exact Or.inr ⟨w, hw, hwr⟩

lemma mem_tallyKeys (votes : List Vote) (r : String) :
    r ∈ tallyKeys votes ↔ ∃ vt ∈ votes, vt.restaurantName = r := by
  rw [tallyKeys, mem_foldl_insertKey]
  simp

lemma mem_votersFor (votes : List Vote) (r v : String) :
    v ∈ votersFor votes r ↔ Vote.mk v r ∈ votes := by
  simp only [votersFor, List.mem_map, List.mem_filter, beq_iff_eq]
  constructor
  · rintro ⟨vt, ⟨hm, hr⟩, hv⟩
    have : vt = Vote.mk v r := by
      cases vt
      simp_all
    rw [← this]
    exact hm
  · intro hm
    exact ⟨Vote.mk v r, ⟨hm, rfl⟩, rfl⟩

lemma tallyHas_iff (votes : List Vote) (r v : String) :
    tallyHas (computeTallyRecords votes) r v ↔ Vote.mk v r ∈ votes := by
  simp only [tallyHas, computeTallyRecords, List.mem_map]
  constructor
  · rintro ⟨e, ⟨k, hk, rfl⟩, hr, hv⟩
    simp only at hr hv
    rw [hr] at hv
    exact (mem_votersFor votes r v).mp hv
  · intro hm
    refine ⟨(r, votersFor votes r), ⟨r, ?_, rfl⟩, rfl, ?_⟩
    · exact (mem_tallyKeys votes r).mpr ⟨Vote.mk v r, hm, rfl⟩
    · exact (mem_votersFor votes r v).mpr hm

/-- C1: the claim says that after SubmitVote(alice, Pizza Place) followed by
SubmitVote(alice, Taco Spot) the store holds exactly one entry for alice,
under Taco Spot, and each submission changes the next tally.  On the code this
fails: `save_vote` only runs a SELECT, so both handler calls return unit and
leave the fresh database unchanged, and afterwards the store holds no row for
alice at all. -/
theorem submit_twice_stores_nothing :
    vote (Db.mk [] none) (VoteRequest.mk "alice" "Pizza Place")
      = some ((), Db.mk [] none) ∧
    vote (Db.mk [] none) (VoteRequest.mk "alice" "Taco Spot")
      = some ((), Db.mk [] none) ∧
    ((Db.mk [] none).rows.filter (fun row => row.voter_name == "alice")).length
      = 0 :=
  ⟨rfl, rfl, rfl⟩

/-- C2: the claim says the store holds at most one live vote per voter because
a resubmission replaces the prior row.  The schema the code declares does not
enforce this: a table state with two rows for alice under different
restaurants (distinct ids) satisfies every constraint of the declared column
list, and the code contains no replacement logic at all. -/
theorem schema_admits_duplicate_voter :
    schemaAdmits
      [VoteRow.mk 1 "alice" "Pizza Place", VoteRow.mk 2 "alice" "Taco Spot"] ∧
    (([VoteRow.mk 1 "alice" "Pizza Place",
       VoteRow.mk 2 "alice" "Taco Spot"].filter
        (fun row => row.voter_name == "alice")).length = 2) :=
  ⟨by unfold schemaAdmits; decide, rfl⟩

/-- C3: the claim says a backend failure of the storage operation is returned
to the caller as a StorageFailure.  On the code this fails: with the backend
failing, `save_vote` does return the backend error, but the `/vote` handler
`dbg!`-prints that `Result` and discards it, answering the caller with plain
unit — the error reaches no caller. -/
theorem backend_error_discarded_by_handler :
    (save_vote (Db.mk [] (some (SqlxError.mk "connection reset")))
        (VoteRequest.mk "alice" "Pizza Place")).1
      = Except.error (SqlxError.mk "connection reset") ∧
    vote (Db.mk [] (some (SqlxError.mk "connection reset")))
        (VoteRequest.mk "alice" "Pizza Place")
      = some ((), Db.mk [] (some (SqlxError.mk "connection reset"))) :=
  ⟨rfl, rfl⟩

/-- C4: on any store in which each voter has at most one record (the
VoteStore guarantee), the modelled ComputeTally lists voter v under
restaurant r exactly when the store holds the record (v, r); no voter is
listed under two distinct restaurants; and the spec's example store yields
exactly the spec's example tally. -/
theorem computeTally_groups_by_restaurant (votes : List Vote)
    (h : (votes.map Vote.voterName).Nodup) :
    (∀ r v, tallyHas (computeTallyRecords votes) r v ↔ Vote.mk v r ∈ votes) ∧
    (∀ r₁ r₂ v, tallyHas (computeTallyRecords votes) r₁ v →
      tallyHas (computeTallyRecords votes) r₂ v → r₁ = r₂) ∧
    computeTallyRecords ExampleStore =
      [("Pizza Place", ["alice", "bob"]), ("Taco Spot", ["carol"])] := by
  refine ⟨fun r v => tallyHas_iff votes r v, ?_, by decide⟩
  intro r₁ r₂ v h₁ h₂
  have m₁ := (tallyHas_iff votes r₁ v).mp h₁
  have m₂ := (tallyHas_iff votes r₂ v).mp h₂
  have heq := List.inj_on_of_nodup_map h m₁ m₂ rfl
  exact (Vote.mk.injEq v r₁ v r₂ ▸ heq).2

/-- Witness for C4: the hypothesis and conclusion hold at the spec's example
store. -/
theorem computeTally_groups_by_restaurant_witness :
    (ExampleStore.map Vote.voterName).Nodup ∧
    ((∀ r v, tallyHas (computeTallyRecords ExampleStore) r v ↔
        Vote.mk v r ∈ ExampleStore) ∧
     (∀ r₁ r₂ v, tallyHas (computeTallyRecords ExampleStore) r₁ v →
        tallyHas (computeTallyRecords ExampleStore) r₂ v → r₁ = r₂) ∧
     computeTallyRecords ExampleStore =
       [("Pizza Place", ["alice", "bob"]), ("Taco Spot", ["carol"])]) :=
  ⟨by decide, computeTally_groups_by_restaurant ExampleStore (by decide)⟩

/-- C5: the claim says a request whose voter name or restaurant name is empty
after trimming is rejected with InvalidInput and causes no storage mutation.
On the code the rejection never happens: `save_vote` performs no validation
and accepts an empty voter name and a whitespace-only restaurant name with
`Ok(())` (its result type cannot even express an InvalidInput).  The store is
indeed unmodified — as it is for every request. -/
theorem empty_fields_accepted :
    emptyAfterTrim "" = true ∧
    emptyAfterTrim "   " = true ∧
    save_vote (Db.mk [] none) (VoteRequest.mk "" "Pizza Place")
      = (Except.ok (), Db.mk [] none) ∧
    save_vote (Db.mk [] none) (VoteRequest.mk "alice" "   ")
      = (Except.ok (), Db.mk [] none) :=
  ⟨rfl, by decide, rfl, rfl⟩

/-- C6: the modelled ComputeTally on an empty store with a healthy backend
returns success with a tally of zero entries, not an error. -/
theorem computeTally_empty_store :
    ComputeTally [] true = Except.ok [] := rfl

/-- C7: `save_vote` never rejects a submission because of the restaurant: its
result does not depend on the restaurant name (or on the request at all), and
the only possible failure is the propagated backend error of the SELECT — no
unknown-restaurant rejection exists. -/
theorem no_unknown_restaurant_rejection (db : Db) (req : VoteRequest)
    (h : emptyAfterTrim req.restaurant_name = false) :
    (∀ r : String,
      save_vote db (VoteRequest.mk req.voter_name r) = save_vote db req) ∧
    ((save_vote db req).1 = Except.ok () ∨
      ∃ e, db.failure = some e ∧ (save_vote db req).1 = Except.error e) := by
  refine ⟨fun r => rfl, ?_⟩
  cases hdb : db.failure with
  | none =>
    left
    simp [save_vote, selectAllVotes, hdb]
  | some e =>
    right
    exact ⟨e, rfl, by simp [save_vote, selectAllVotes, hdb]⟩

/-- Witness for C7 at a concrete database and request. -/
theorem no_unknown_restaurant_rejection_witness :
    emptyAfterTrim "Pizza Place" = false ∧
    ((∀ r : String,
        save_vote (Db.mk [] none) (VoteRequest.mk "alice" r)
          = save_vote (Db.mk [] none) (VoteRequest.mk "alice" "Pizza Place")) ∧
     ((save_vote (Db.mk [] none) (VoteRequest.mk "alice" "Pizza Place")).1
        = Except.ok () ∨
      ∃ e, (Db.mk [] none : Db).failure = some e ∧
        (save_vote (Db.mk [] none) (VoteRequest.mk "alice" "Pizza Place")).1
          = Except.error e)) :=
  ⟨by decide,
   no_unknown_restaurant_rejection (Db.mk [] none)
     (VoteRequest.mk "alice" "Pizza Place") (by decide)⟩

/-- C8: request handling is never fatal — the `/vote` handler's translation
returns an answer for every database state, including failing backends —
while a startup failure is: a failed connect, or a failed execution of the
CREATE TABLE DDL, aborts the process (`none`). -/
theorem request_failures_not_fatal :
    (∀ (db : Db) (req : VoteRequest), (vote db req).isSome = true) ∧
    (∀ (e : SqlxError) (d : Db → Except SqlxError Unit),
      main_startup (Except.error e) d = none) ∧
    (∀ (db : Db) (e : SqlxError),
      main_startup (Except.ok db) (fun _ => Except.error e) = none) :=
  ⟨fun _ _ => rfl, fun _ _ => rfl, fun _ _ => rfl⟩

/-- C9: `save_vote` is read-only — for every request and database state the
database after the call, and in particular its set of vote rows, is exactly
the one before. -/
theorem save_vote_read_only :
    ∀ (db : Db) (req : VoteRequest),
      (save_vote db req).2 = db ∧ (save_vote db req).2.rows = db.rows := by
  intro db req
  have h2 : (save_vote db req).2 = db := by
    cases hdb : db.failure <;> simp [save_vote, selectAllVotes, hdb]
  exact ⟨h2, by rw [h2]⟩

/-- C10: the `/vote` handler acknowledges unconditionally — for every set of
rows and every backend state, failing or healthy, it returns unit success and
leaves the database as it was, so the caller sees the same acknowledgment
whether `save_vote` succeeded or failed. -/
theorem vote_acknowledges_unconditionally :
    ∀ (rows : List VoteRow) (failure : Option SqlxError) (req : VoteRequest),
      vote (Db.mk rows failure) req = some ((), Db.mk rows failure) := by
  intro rows failure req
  cases failure <;> rfl
